import Mathlib

/-!
Verification of the Mumble control-channel codec (`src/control.rs`).

The development shallowly embeds the codec stack:
* `RawControlCodec.decode` / `RawControlCodec.encode` — the length-prefixed
  framer (`impl RawControlCodec`, lines 60–114 of `control.rs`);
* the packet registry produced by `define_packet_mappings!`;
* the `ControlPacket` sum type with its `TryFrom<RawControlPacket>` /
  `From<ControlPacket>` conversions produced by `define_packet_enum!`;
* the per-kind narrow extraction `TryFrom<RawControlPacket>` impls produced
  by `define_packet_from!`.

Byte buffers (`Bytes`/`BytesMut`) are embedded as `List Nat` with each
element a byte value; machine-integer casts (`len as u32`) appear as
explicit `% 2 ^ 32`.  The external protobuf message types and the voice
codec (`crate::voice`, outside the verified sources) are parameters of the
development: a per-kind parse/serialize pair for protobuf payloads and an
encode/decode pair for tunneled voice packets.
-/

namespace Mumble

/-- Read a big-endian u16 from the first two bytes of a buffer
(`Cursor::get_u16`). -/
def getU16BE (l : List Nat) : Nat :=
  256 * l.getD 0 0 + l.getD 1 0

/-- Read a big-endian u32 from the first four bytes of a buffer
(`Cursor::get_u32`, applied after the two tag bytes were consumed). -/
def getU32BE (l : List Nat) : Nat :=
  16777216 * l.getD 0 0 + 65536 * l.getD 1 0 + 256 * l.getD 2 0 + l.getD 3 0

/-- Big-endian byte serialization of a u16 (`BufMut::put_u16`). -/
def u16Bytes (n : Nat) : List Nat :=
  [n / 256 % 256, n % 256]

/-- Big-endian byte serialization of a u32 (`BufMut::put_u32`). -/
def u32Bytes (n : Nat) : List Nat :=
  [n / 16777216 % 256, n / 65536 % 256, n / 256 % 256, n % 256]

/-- Raw/not-yet-parsed Mumble control packet (`struct RawControlPacket`). -/
structure RawControlPacket where
  /-- Packet ID (a `u16` in the source). -/
  id : Nat
  /-- Raw message bytes. -/
  bytes : List Nat
  deriving DecidableEq, Repr

namespace RawControlCodec

/-- Embedding of `RawControlCodec::decode`.  The source reads the six
header bytes through a `Cursor` (which does not consume from the
underlying buffer), rejects frames whose declared length exceeds
`0x7f_ffff`, and otherwise either splits off the complete frame
(`split_to(6 + len)` followed by `advance(6)`) or reports that the frame
is still incomplete.  The result pairs the `Result<Option<_>>` value with
the buffer as it is left by the call. -/
def decode (buf : List Nat) : Except String (Option RawControlPacket) × List Nat :=
  if 6 ≤ buf.length then
    let id := getU16BE buf
    let len := getU32BE (buf.drop 2)
    if 0x7fffff < len then
      (.error "packet too long", buf)
    else if 6 + len ≤ buf.length then
      (.ok (some { id := id, bytes := (buf.take (6 + len)).drop 6 }), buf.drop (6 + len))
    else
      (.ok none, buf)
  else
    (.ok none, buf)

/-- Embedding of `RawControlCodec::encode`: reserve space, then append the
tag (`put_u16`), the payload length truncated to u32 (`put_u32(len as
u32)`) and the payload bytes (`put_slice`).  Always returns `Ok`. -/
def encode (item : RawControlPacket) (dst : List Nat) : Except String (List Nat) :=
  .ok (dst ++ u16Bytes item.id ++ u32Bytes (item.bytes.length % 4294967296) ++ item.bytes)

end RawControlCodec

/-- The bytes of one encoded frame: what `RawControlCodec::encode` appends
for a packet. -/
def frameBytes (p : RawControlPacket) : List Nat :=
  u16Bytes p.id ++ u32Bytes (p.bytes.length % 4294967296) ++ p.bytes

/-- The message kinds listed in the `define_packets!` invocation, in
declaration order. -/
inductive PacketKind where
  | Version
  | UDPTunnel
  | Authenticate
  | Ping
  | Reject
  | ServerSync
  | ChannelRemove
  | ChannelState
  | UserRemove
  | UserState
  | BanList
  | TextMessage
  | PermissionDenied
  | ACL
  | QueryUsers
  | CryptSetup
  | ContextActionModify
  | ContextAction
  | UserList
  | VoiceTarget
  | PermissionQuery
  | CodecVersion
  | UserStats
  | RequestBlob
  | ServerConfig
  | SuggestConfig
  | WebRTC
  | IceCandidate
  | TalkingState
  deriving DecidableEq, Repr

/-- The `define_packets!` declaration list: each kind together with whether
it sits behind the `webrtc-extensions` feature gate (`#[cfg(feature =
"webrtc-extensions")]`). -/
def packetDecl : List (PacketKind × Bool) :=
  [(.Version, false), (.UDPTunnel, false), (.Authenticate, false), (.Ping, false),
   (.Reject, false), (.ServerSync, false), (.ChannelRemove, false), (.ChannelState, false),
   (.UserRemove, false), (.UserState, false), (.BanList, false), (.TextMessage, false),
   (.PermissionDenied, false), (.ACL, false), (.QueryUsers, false), (.CryptSetup, false),
   (.ContextActionModify, false), (.ContextAction, false), (.UserList, false),
   (.VoiceTarget, false), (.PermissionQuery, false), (.CodecVersion, false),
   (.UserStats, false), (.RequestBlob, false), (.ServerConfig, false),
   (.SuggestConfig, false), (.WebRTC, true), (.IceCandidate, true), (.TalkingState, true)]

/-- Recursion of `define_packet_mappings!`: the id counter advances by one
for every declared kind, whether or not the kind's `cfg` attribute keeps
it in the build, but only kinds present in the build receive a constant. -/
def mappingsAux (webrtc : Bool) (i : Nat) : List (PacketKind × Bool) → List (PacketKind × Nat)
  | [] => []
  | (k, gated) :: rest =>
      (if gated && !webrtc then [] else [(k, i)]) ++ mappingsAux webrtc (i + 1) rest

/-- The packet-id table generated by `define_packet_mappings!` for a build
with (`webrtc := true`) or without (`webrtc := false`) the
`webrtc-extensions` feature. -/
def buildMappings (webrtc : Bool) : List (PacketKind × Nat) :=
  mappingsAux webrtc 0 packetDecl

/-- The tag a build assigns to a kind, `none` when the kind is compiled
out. -/
def tagForBuild (webrtc : Bool) (k : PacketKind) : Option Nat :=
  ((buildMappings webrtc).find? (fun e => e.1 == k)).map (fun e => e.2)

/-- The kind registered for a tag in the full (all-features) build; `none`
for an unassigned tag. -/
def kindFor (tag : Nat) : Option PacketKind :=
  ((buildMappings true).find? (fun e => e.2 == tag)).map (fun e => e.1)

namespace msgs.id

/-- Packet id constants generated into `msgs::id` by
`define_packet_mappings!` (contiguous from zero in declaration order). -/
abbrev Version : Nat := 0

abbrev UDPTunnel : Nat := 1

abbrev Authenticate : Nat := 2

abbrev Ping : Nat := 3

abbrev Reject : Nat := 4

abbrev ServerSync : Nat := 5

abbrev ChannelRemove : Nat := 6

abbrev ChannelState : Nat := 7

abbrev UserRemove : Nat := 8

abbrev UserState : Nat := 9

abbrev BanList : Nat := 10

abbrev TextMessage : Nat := 11

abbrev PermissionDenied : Nat := 12

abbrev ACL : Nat := 13

abbrev QueryUsers : Nat := 14

abbrev CryptSetup : Nat := 15

abbrev ContextActionModify : Nat := 16

abbrev ContextAction : Nat := 17

abbrev UserList : Nat := 18

abbrev VoiceTarget : Nat := 19

abbrev PermissionQuery : Nat := 20

abbrev CodecVersion : Nat := 21

abbrev UserStats : Nat := 22

abbrev RequestBlob : Nat := 23

abbrev ServerConfig : Nat := 24

abbrev SuggestConfig : Nat := 25

abbrev WebRTC : Nat := 26

abbrev IceCandidate : Nat := 27

abbrev TalkingState : Nat := 28

end msgs.id

/-- A parsed Mumble control packet: the `ControlPacket<Dst>` enum generated
by `define_packet_enum!`.  `V` is the externally defined tunneled
voice-packet type `VoicePacket<Dst>`; `M k` is the externally defined
protobuf message type of the kind whose packet id is `k` (the `Box`
indirection of the source is erased). -/
inductive ControlPacket (V : Type) (M : Nat → Type) where
  | Version : M msgs.id.Version → ControlPacket V M
  | UDPTunnel : V → ControlPacket V M
  | Authenticate : M msgs.id.Authenticate → ControlPacket V M
  | Ping : M msgs.id.Ping → ControlPacket V M
  | Reject : M msgs.id.Reject → ControlPacket V M
  | ServerSync : M msgs.id.ServerSync → ControlPacket V M
  | ChannelRemove : M msgs.id.ChannelRemove → ControlPacket V M
  | ChannelState : M msgs.id.ChannelState → ControlPacket V M
  | UserRemove : M msgs.id.UserRemove → ControlPacket V M
  | UserState : M msgs.id.UserState → ControlPacket V M
  | BanList : M msgs.id.BanList → ControlPacket V M
  | TextMessage : M msgs.id.TextMessage → ControlPacket V M
  | PermissionDenied : M msgs.id.PermissionDenied → ControlPacket V M
  | ACL : M msgs.id.ACL → ControlPacket V M
  | QueryUsers : M msgs.id.QueryUsers → ControlPacket V M
  | CryptSetup : M msgs.id.CryptSetup → ControlPacket V M
  | ContextActionModify : M msgs.id.ContextActionModify → ControlPacket V M
  | ContextAction : M msgs.id.ContextAction → ControlPacket V M
  | UserList : M msgs.id.UserList → ControlPacket V M
  | VoiceTarget : M msgs.id.VoiceTarget → ControlPacket V M
  | PermissionQuery : M msgs.id.PermissionQuery → ControlPacket V M
  | CodecVersion : M msgs.id.CodecVersion → ControlPacket V M
  | UserStats : M msgs.id.UserStats → ControlPacket V M
  | RequestBlob : M msgs.id.RequestBlob → ControlPacket V M
  | ServerConfig : M msgs.id.ServerConfig → ControlPacket V M
  | SuggestConfig : M msgs.id.SuggestConfig → ControlPacket V M
  | WebRTC : M msgs.id.WebRTC → ControlPacket V M
  | IceCandidate : M msgs.id.IceCandidate → ControlPacket V M
  | TalkingState : M msgs.id.TalkingState → ControlPacket V M
  | Other : RawControlPacket → ControlPacket V M

section Dispatcher

variable {V : Type} {M : Nat → Type}

/-- Embedding of the generated `TryFrom<RawControlPacket> for
ControlPacket<Dst>`: match on the packet id against the `msgs::id`
constants in declaration order, delegating the payload to the matching
kind's parser, with unmatched ids falling through to `Other`.  `parseM k`
is the external protobuf parser of kind `k` (`Message::parse_from_bytes`
behind `TryFrom<Bytes>`); `decV` is the voice decoder used by the
`UDPTunnel` arm.  Modelled from the spec: `decV` stands for
`TryFrom<Bytes> for VoicePacket<Dst>` over `VoiceCodec::decode` from
`crate::voice`, which is outside the embedded sources; per the spec's
media-codec contract it consumes a complete payload and returns either a
packet or an error. -/
def ControlPacket.tryFrom (parseM : (k : Nat) → List Nat → Except String (M k))
    (decV : List Nat → Except String V) (packet : RawControlPacket) :
    Except String (ControlPacket V M) :=
  if packet.id = msgs.id.Version then (parseM msgs.id.Version packet.bytes).map ControlPacket.Version
  else if packet.id = msgs.id.UDPTunnel then (decV packet.bytes).map ControlPacket.UDPTunnel
  else if packet.id = msgs.id.Authenticate then (parseM msgs.id.Authenticate packet.bytes).map ControlPacket.Authenticate
  else if packet.id = msgs.id.Ping then (parseM msgs.id.Ping packet.bytes).map ControlPacket.Ping
  else if packet.id = msgs.id.Reject then (parseM msgs.id.Reject packet.bytes).map ControlPacket.Reject
  else if packet.id = msgs.id.ServerSync then (parseM msgs.id.ServerSync packet.bytes).map ControlPacket.ServerSync
  else if packet.id = msgs.id.ChannelRemove then (parseM msgs.id.ChannelRemove packet.bytes).map ControlPacket.ChannelRemove
  else if packet.id = msgs.id.ChannelState then (parseM msgs.id.ChannelState packet.bytes).map ControlPacket.ChannelState
  else if packet.id = msgs.id.UserRemove then (parseM msgs.id.UserRemove packet.bytes).map ControlPacket.UserRemove
  else if packet.id = msgs.id.UserState then (parseM msgs.id.UserState packet.bytes).map ControlPacket.UserState
  else if packet.id = msgs.id.BanList then (parseM msgs.id.BanList packet.bytes).map ControlPacket.BanList
  else if packet.id = msgs.id.TextMessage then (parseM msgs.id.TextMessage packet.bytes).map ControlPacket.TextMessage
  else if packet.id = msgs.id.PermissionDenied then (parseM msgs.id.PermissionDenied packet.bytes).map ControlPacket.PermissionDenied
  else if packet.id = msgs.id.ACL then (parseM msgs.id.ACL packet.bytes).map ControlPacket.ACL
  else if packet.id = msgs.id.QueryUsers then (parseM msgs.id.QueryUsers packet.bytes).map ControlPacket.QueryUsers
  else if packet.id = msgs.id.CryptSetup then (parseM msgs.id.CryptSetup packet.bytes).map ControlPacket.CryptSetup
  else if packet.id = msgs.id.ContextActionModify then (parseM msgs.id.ContextActionModify packet.bytes).map ControlPacket.ContextActionModify
  else if packet.id = msgs.id.ContextAction then (parseM msgs.id.ContextAction packet.bytes).map ControlPacket.ContextAction
  else if packet.id = msgs.id.UserList then (parseM msgs.id.UserList packet.bytes).map ControlPacket.UserList
  else if packet.id = msgs.id.VoiceTarget then (parseM msgs.id.VoiceTarget packet.bytes).map ControlPacket.VoiceTarget
  else if packet.id = msgs.id.PermissionQuery then (parseM msgs.id.PermissionQuery packet.bytes).map ControlPacket.PermissionQuery
  else if packet.id = msgs.id.CodecVersion then (parseM msgs.id.CodecVersion packet.bytes).map ControlPacket.CodecVersion
  else if packet.id = msgs.id.UserStats then (parseM msgs.id.UserStats packet.bytes).map ControlPacket.UserStats
  else if packet.id = msgs.id.RequestBlob then (parseM msgs.id.RequestBlob packet.bytes).map ControlPacket.RequestBlob
  else if packet.id = msgs.id.ServerConfig then (parseM msgs.id.ServerConfig packet.bytes).map ControlPacket.ServerConfig
  else if packet.id = msgs.id.SuggestConfig then (parseM msgs.id.SuggestConfig packet.bytes).map ControlPacket.SuggestConfig
  else if packet.id = msgs.id.WebRTC then (parseM msgs.id.WebRTC packet.bytes).map ControlPacket.WebRTC
  else if packet.id = msgs.id.IceCandidate then (parseM msgs.id.IceCandidate packet.bytes).map ControlPacket.IceCandidate
  else if packet.id = msgs.id.TalkingState then (parseM msgs.id.TalkingState packet.bytes).map ControlPacket.TalkingState
  else .ok (.Other packet)

/-- Embedding of the generated `From<ControlPacket<Dst>> for
RawControlPacket`: each known variant serializes its payload and pairs it
with its kind's id constant; `Other` passes the wrapped raw packet through
unchanged.  `serM k` is the external protobuf serializer of kind `k`
(`write_to_bytes`, whose `unwrap` never fires per the protobuf contract).
Modelled from the spec: `encV` stands for the `From<VoicePacket<Dst>>`
conversion over `VoiceCodec::encode` from `crate::voice`, outside the
embedded sources and infallible by its contract (see `voiceIntoRaw` for
the assertion-level view). -/
def ControlPacket.toRaw (serM : (k : Nat) → M k → List Nat) (encV : V → List Nat) :
    ControlPacket V M → RawControlPacket
  | .Version m => { id := msgs.id.Version, bytes := serM msgs.id.Version m }
  | .UDPTunnel v => { id := msgs.id.UDPTunnel, bytes := encV v }
  | .Authenticate m => { id := msgs.id.Authenticate, bytes := serM msgs.id.Authenticate m }
  | .Ping m => { id := msgs.id.Ping, bytes := serM msgs.id.Ping m }
  | .Reject m => { id := msgs.id.Reject, bytes := serM msgs.id.Reject m }
  | .ServerSync m => { id := msgs.id.ServerSync, bytes := serM msgs.id.ServerSync m }
  | .ChannelRemove m => { id := msgs.id.ChannelRemove, bytes := serM msgs.id.ChannelRemove m }
  | .ChannelState m => { id := msgs.id.ChannelState, bytes := serM msgs.id.ChannelState m }
  | .UserRemove m => { id := msgs.id.UserRemove, bytes := serM msgs.id.UserRemove m }
  | .UserState m => { id := msgs.id.UserState, bytes := serM msgs.id.UserState m }
  | .BanList m => { id := msgs.id.BanList, bytes := serM msgs.id.BanList m }
  | .TextMessage m => { id := msgs.id.TextMessage, bytes := serM msgs.id.TextMessage m }
  | .PermissionDenied m => { id := msgs.id.PermissionDenied, bytes := serM msgs.id.PermissionDenied m }
  | .ACL m => { id := msgs.id.ACL, bytes := serM msgs.id.ACL m }
  | .QueryUsers m => { id := msgs.id.QueryUsers, bytes := serM msgs.id.QueryUsers m }
  | .CryptSetup m => { id := msgs.id.CryptSetup, bytes := serM msgs.id.CryptSetup m }
  | .ContextActionModify m => { id := msgs.id.ContextActionModify, bytes := serM msgs.id.ContextActionModify m }
  | .ContextAction m => { id := msgs.id.ContextAction, bytes := serM msgs.id.ContextAction m }
  | .UserList m => { id := msgs.id.UserList, bytes := serM msgs.id.UserList m }
  | .VoiceTarget m => { id := msgs.id.VoiceTarget, bytes := serM msgs.id.VoiceTarget m }
  | .PermissionQuery m => { id := msgs.id.PermissionQuery, bytes := serM msgs.id.PermissionQuery m }
  | .CodecVersion m => { id := msgs.id.CodecVersion, bytes := serM msgs.id.CodecVersion m }
  | .UserStats m => { id := msgs.id.UserStats, bytes := serM msgs.id.UserStats m }
  | .RequestBlob m => { id := msgs.id.RequestBlob, bytes := serM msgs.id.RequestBlob m }
  | .ServerConfig m => { id := msgs.id.ServerConfig, bytes := serM msgs.id.ServerConfig m }
  | .SuggestConfig m => { id := msgs.id.SuggestConfig, bytes := serM msgs.id.SuggestConfig m }
  | .WebRTC m => { id := msgs.id.WebRTC, bytes := serM msgs.id.WebRTC m }
  | .IceCandidate m => { id := msgs.id.IceCandidate, bytes := serM msgs.id.IceCandidate m }
  | .TalkingState m => { id := msgs.id.TalkingState, bytes := serM msgs.id.TalkingState m }
  | .Other r => r

/-- Embedding of the per-kind narrow extraction
`TryFrom<RawControlPacket> for $type` generated by `define_packet_from!`:
`k` is the kind's id constant (`msgs::id::$name`) and `name` the kind's
identifier (`stringify!($name)` in the generated error message). -/
def msgTryFromRaw (parseM : (k : Nat) → List Nat → Except String (M k))
    (k : Nat) (name : String) (p : RawControlPacket) : Except String (M k) :=
  if p.id = k then parseM k p.bytes
  else .error ("expected packet of type " ++ name)

/-- Embedding of `TryFrom<RawControlPacket> for VoicePacket<Dst>`: extract
a tunneled voice packet from a raw frame, accepting only the `UDPTunnel`
tag.  Modelled from the spec: `decV` is the external media decoder (see
`ControlPacket.tryFrom`). -/
def voiceTryFromRaw (decV : List Nat → Except String V) (p : RawControlPacket) :
    Except String V :=
  if p.id = msgs.id.UDPTunnel then decV p.bytes
  else .error "expected packet of type UDPTunnel"

/-- Embedding of `From<VoicePacket<Dst>> for RawControlPacket`, keeping the
fallibility of the inner encoder call visible: `none` models the
`.expect("VoiceEncoder is infallible")` assertion firing, which happens
exactly when the external encoder reports an error.  Modelled from the
spec: `encVf` is `VoiceCodec::encode` of `crate::voice`, outside the
embedded sources; its contract makes it infallible. -/
def voiceIntoRaw (encVf : V → Except String (List Nat)) (v : V) : Option RawControlPacket :=
  match encVf v with
  | .ok bs => some { id := msgs.id.UDPTunnel, bytes := bs }
  | .error _ => none

/-- Payload-level round-trip condition for one message: for a known-kind
variant, the external per-kind codec round-trips the wrapped payload (the
external collaborator's contract); for `Other`, the wrapped tag is
unassigned in the registry. -/
def PayloadRoundTrips (parseM : (k : Nat) → List Nat → Except String (M k))
    (serM : (k : Nat) → M k → List Nat) (decV : List Nat → Except String V)
    (encV : V → List Nat) : ControlPacket V M → Prop
  | .Version m => parseM msgs.id.Version (serM msgs.id.Version m) = .ok m
  | .UDPTunnel v => decV (encV v) = .ok v
  | .Authenticate m => parseM msgs.id.Authenticate (serM msgs.id.Authenticate m) = .ok m
  | .Ping m => parseM msgs.id.Ping (serM msgs.id.Ping m) = .ok m
  | .Reject m => parseM msgs.id.Reject (serM msgs.id.Reject m) = .ok m
  | .ServerSync m => parseM msgs.id.ServerSync (serM msgs.id.ServerSync m) = .ok m
  | .ChannelRemove m => parseM msgs.id.ChannelRemove (serM msgs.id.ChannelRemove m) = .ok m
  | .ChannelState m => parseM msgs.id.ChannelState (serM msgs.id.ChannelState m) = .ok m
  | .UserRemove m => parseM msgs.id.UserRemove (serM msgs.id.UserRemove m) = .ok m
  | .UserState m => parseM msgs.id.UserState (serM msgs.id.UserState m) = .ok m
  | .BanList m => parseM msgs.id.BanList (serM msgs.id.BanList m) = .ok m
  | .TextMessage m => parseM msgs.id.TextMessage (serM msgs.id.TextMessage m) = .ok m
  | .PermissionDenied m => parseM msgs.id.PermissionDenied (serM msgs.id.PermissionDenied m) = .ok m
  | .ACL m => parseM msgs.id.ACL (serM msgs.id.ACL m) = .ok m
  | .QueryUsers m => parseM msgs.id.QueryUsers (serM msgs.id.QueryUsers m) = .ok m
  | .CryptSetup m => parseM msgs.id.CryptSetup (serM msgs.id.CryptSetup m) = .ok m
  | .ContextActionModify m => parseM msgs.id.ContextActionModify (serM msgs.id.ContextActionModify m) = .ok m
  | .ContextAction m => parseM msgs.id.ContextAction (serM msgs.id.ContextAction m) = .ok m
  | .UserList m => parseM msgs.id.UserList (serM msgs.id.UserList m) = .ok m
  | .VoiceTarget m => parseM msgs.id.VoiceTarget (serM msgs.id.VoiceTarget m) = .ok m
  | .PermissionQuery m => parseM msgs.id.PermissionQuery (serM msgs.id.PermissionQuery m) = .ok m
  | .CodecVersion m => parseM msgs.id.CodecVersion (serM msgs.id.CodecVersion m) = .ok m
  | .UserStats m => parseM msgs.id.UserStats (serM msgs.id.UserStats m) = .ok m
  | .RequestBlob m => parseM msgs.id.RequestBlob (serM msgs.id.RequestBlob m) = .ok m
  | .ServerConfig m => parseM msgs.id.ServerConfig (serM msgs.id.ServerConfig m) = .ok m
  | .SuggestConfig m => parseM msgs.id.SuggestConfig (serM msgs.id.SuggestConfig m) = .ok m
  | .WebRTC m => parseM msgs.id.WebRTC (serM msgs.id.WebRTC m) = .ok m
  | .IceCandidate m => parseM msgs.id.IceCandidate (serM msgs.id.IceCandidate m) = .ok m
  | .TalkingState m => parseM msgs.id.TalkingState (serM msgs.id.TalkingState m) = .ok m
  | .Other r => kindFor r.id = none

end Dispatcher

/-- Trivial payload type family used to instantiate the external-codec
parameters at concrete inputs: every kind's message type is a byte list. -/
def idMsg : Nat → Type := fun _ => List Nat

/-- Identity protobuf parser for the `idMsg` instantiation. -/
def idParse : (k : Nat) → List Nat → Except String (idMsg k) := fun _ b => .ok b

/-- Identity protobuf serializer for the `idMsg` instantiation. -/
def idSer : (k : Nat) → idMsg k → List Nat := fun _ m => m

/-- Identity voice decoder over `V := List Nat`. -/
def idDec : List Nat → Except String (List Nat) := fun b => .ok b

/-- Identity voice encoder over `V := List Nat`. -/
def idEnc : List Nat → List Nat := fun v => v

/-- An always-failing protobuf parser, failing with one fixed message for
every kind. -/
def failParse : (k : Nat) → List Nat → Except String (idMsg k) := fun _ _ => .error "bad payload"

/-! ### Helper lemmas about the byte-level framer -/

lemma getU16BE_cons (a b : Nat) (rest : List Nat) : getU16BE (a :: b :: rest) = 256 * a + b := rfl

lemma getU32BE_cons (a b c d : Nat) (rest : List Nat) :
    getU32BE (a :: b :: c :: d :: rest) = 16777216 * a + 65536 * b + 256 * c + d := rfl

lemma getD_drop (l : List Nat) (m i d : Nat) : (l.drop m).getD i d = l.getD (m + i) d := by
  show ((l.drop m).get? i).getD d = (l.get? (m + i)).getD d
  rw [List.get?_drop]

lemma getD_take (l : List Nat) (n i d : Nat) (h : i < n) : (l.take n).getD i d = l.getD i d := by
  induction l generalizing n i with
  | nil => simp
  | cons a t ih =>
      cases n with
      | zero => omega
      | succ n =>
          cases i with
          | zero => simp [List.getD]
          | succ i => simpa [List.getD] using ih n i (by omega)

lemma getU32BE_drop2 (l : List Nat) :
    getU32BE (l.drop 2) =
      16777216 * l.getD 2 0 + 65536 * l.getD 3 0 + 256 * l.getD 4 0 + l.getD 5 0 := by
  rw [getU32BE, getD_drop, getD_drop, getD_drop, getD_drop]

lemma frameBytes_cons (id : Nat) (bytes : List Nat) :
    frameBytes ⟨id, bytes⟩ =
      id / 256 % 256 :: id % 256 ::
      bytes.length % 4294967296 / 16777216 % 256 ::
      bytes.length % 4294967296 / 65536 % 256 ::
      bytes.length % 4294967296 / 256 % 256 ::
      bytes.length % 4294967296 % 256 :: bytes := by
  simp [frameBytes, u16Bytes, u32Bytes]

lemma length_frameBytes (p : RawControlPacket) : (frameBytes p).length = 6 + p.bytes.length := by
  simp [frameBytes, u16Bytes, u32Bytes]; omega

lemma getU16BE_frameBytes_append (p : RawControlPacket) (extra : List Nat)
    (hid : p.id < 65536) : getU16BE (frameBytes p ++ extra) = p.id := by
  obtain ⟨id, bytes⟩ := p
  have hid' : id < 65536 := hid
  show getU16BE (frameBytes ⟨id, bytes⟩ ++ extra) = id
  rw [frameBytes_cons, List.cons_append, List.cons_append, getU16BE_cons]
  omega

lemma getU32BE_frameBytes_append (p : RawControlPacket) (extra : List Nat)
    (hlen : p.bytes.length < 4294967296) :
    getU32BE ((frameBytes p ++ extra).drop 2) = p.bytes.length := by
  obtain ⟨id, bytes⟩ := p
  have hlen' : bytes.length < 4294967296 := hlen
  show getU32BE ((frameBytes ⟨id, bytes⟩ ++ extra).drop 2) = bytes.length
  rw [frameBytes_cons]
  rw [show (id / 256 % 256 :: id % 256 ::
      bytes.length % 4294967296 / 16777216 % 256 ::
      bytes.length % 4294967296 / 65536 % 256 ::
      bytes.length % 4294967296 / 256 % 256 ::
      bytes.length % 4294967296 % 256 :: bytes ++ extra).drop 2 =
      bytes.length % 4294967296 / 16777216 % 256 ::
      bytes.length % 4294967296 / 65536 % 256 ::
      bytes.length % 4294967296 / 256 % 256 ::
      bytes.length % 4294967296 % 256 :: (bytes ++ extra) from rfl]
  rw [getU32BE_cons]
  omega

lemma decode_short (buf : List Nat) (h : buf.length < 6) :
    RawControlCodec.decode buf = (.ok none, buf) := by
  rw [RawControlCodec.decode, if_neg (by omega)]

lemma decode_too_long (buf : List Nat) (h6 : 6 ≤ buf.length)
    (h : 0x7fffff < getU32BE (buf.drop 2)) :
    RawControlCodec.decode buf = (.error "packet too long", buf) := by
  rw [RawControlCodec.decode, if_pos h6]
  simp only [if_pos h]

lemma decode_incomplete (buf : List Nat) (h6 : 6 ≤ buf.length)
    (hmax : getU32BE (buf.drop 2) ≤ 0x7fffff)
    (hlt : buf.length < 6 + getU32BE (buf.drop 2)) :
    RawControlCodec.decode buf = (.ok none, buf) := by
  rw [RawControlCodec.decode, if_pos h6]
  simp only [if_neg (by omega : ¬ 0x7fffff < getU32BE (buf.drop 2)),
    if_neg (by omega : ¬ 6 + getU32BE (buf.drop 2) ≤ buf.length)]

lemma decode_frameBytes_append (p : RawControlPacket) (extra : List Nat)
    (hid : p.id < 65536) (hlen : p.bytes.length ≤ 0x7fffff) :
    RawControlCodec.decode (frameBytes p ++ extra) = (.ok (some p), extra) := by
  have h16 := getU16BE_frameBytes_append p extra hid
  have h32 := getU32BE_frameBytes_append p extra (by omega)
  have hlenB : (frameBytes p ++ extra).length = 6 + p.bytes.length + extra.length := by
    simp [length_frameBytes]
  have htake : (frameBytes p ++ extra).take (6 + p.bytes.length) = frameBytes p := by
    rw [show 6 + p.bytes.length = (frameBytes p).length + 0 by simp [length_frameBytes]]
    rw [List.take_append]; simp
  have hdrop : (frameBytes p ++ extra).drop (6 + p.bytes.length) = extra := by
    rw [show 6 + p.bytes.length = (frameBytes p).length + 0 by simp [length_frameBytes]]
    rw [List.drop_append]; simp
  have hfb : (frameBytes p).drop 6 = p.bytes := by
    obtain ⟨id, bytes⟩ := p
    rw [frameBytes_cons]; rfl
  rw [RawControlCodec.decode]
  rw [h16, h32, hlenB]
  rw [if_pos (show 6 ≤ 6 + p.bytes.length + extra.length by omega)]
  rw [if_neg (show ¬ 0x7fffff < p.bytes.length by omega)]
  rw [if_pos (show 6 + p.bytes.length ≤ 6 + p.bytes.length + extra.length by omega)]
  rw [htake, hfb, hdrop]

lemma decode_take_frameBytes (p : RawControlPacket) (n : Nat)
    (hlen : p.bytes.length ≤ 0x7fffff) (hn : n < (frameBytes p).length) :
    RawControlCodec.decode ((frameBytes p).take n) = (.ok none, (frameBytes p).take n) := by
  have hfl := length_frameBytes p
  have htl : ((frameBytes p).take n).length = n := List.length_take_of_le (by omega)
  by_cases h6 : n < 6
  · exact decode_short _ (by omega)
  · push_neg at h6
    have h32full : getU32BE ((frameBytes p).drop 2) = p.bytes.length := by
      have := getU32BE_frameBytes_append p [] (by omega)
      simpa using this
    have key : getU32BE (((frameBytes p).take n).drop 2) = p.bytes.length := by
      rw [getU32BE_drop2, getD_take _ _ _ _ (by omega), getD_take _ _ _ _ (by omega),
        getD_take _ _ _ _ (by omega), getD_take _ _ _ _ (by omega), ← getU32BE_drop2, h32full]
    exact decode_incomplete _ (by omega) (by rw [key]; omega) (by rw [key]; omega)

lemma decode_success_raw (buf : List Nat) (h6 : 6 ≤ buf.length)
    (hmax : getU32BE (buf.drop 2) ≤ 0x7fffff)
    (hfit : 6 + getU32BE (buf.drop 2) ≤ buf.length) :
    RawControlCodec.decode buf =
      (.ok (some { id := getU16BE buf,
                   bytes := (buf.take (6 + getU32BE (buf.drop 2))).drop 6 }),
       buf.drop (6 + getU32BE (buf.drop 2))) := by
  rw [RawControlCodec.decode, if_pos h6]
  simp only [if_neg (by omega : ¬ 0x7fffff < getU32BE (buf.drop 2)), if_pos hfit]

lemma decode_some_inv (buf : List Nat) (p : RawControlPacket) (rest : List Nat)
    (h : RawControlCodec.decode buf = (.ok (some p), rest)) :
    6 + p.bytes.length ≤ buf.length ∧
    p.id = getU16BE buf ∧
    p.bytes = (buf.drop 6).take p.bytes.length ∧
    rest = buf.drop (6 + p.bytes.length) := by
  by_cases h6 : 6 ≤ buf.length
  · by_cases hmax : 0x7fffff < getU32BE (buf.drop 2)
    · rw [decode_too_long buf h6 hmax] at h
      exact absurd h (by simp)
    · push_neg at hmax
      by_cases hfit : 6 + getU32BE (buf.drop 2) ≤ buf.length
      · rw [decode_success_raw buf h6 hmax hfit] at h
        simp only [Prod.mk.injEq, Except.ok.injEq, Option.some.injEq] at h
        obtain ⟨hp, hrest⟩ := h
        subst hp
        subst hrest
        have hblen : ((buf.take (6 + getU32BE (buf.drop 2))).drop 6).length =
            getU32BE (buf.drop 2) := by
          simp only [List.length_drop, List.length_take]
          omega
        refine ⟨?_, rfl, ?_, ?_⟩
        · show 6 + ((buf.take (6 + getU32BE (buf.drop 2))).drop 6).length ≤ buf.length
          rw [hblen]
          exact hfit
        · show (buf.take (6 + getU32BE (buf.drop 2))).drop 6 =
            (buf.drop 6).take ((buf.take (6 + getU32BE (buf.drop 2))).drop 6).length
          rw [hblen, List.drop_take]
          congr 1
          omega
        · show buf.drop (6 + getU32BE (buf.drop 2)) =
            buf.drop (6 + ((buf.take (6 + getU32BE (buf.drop 2))).drop 6).length)
          rw [hblen]
      · rw [decode_incomplete buf h6 hmax (by omega)] at h
        exact absurd h (by simp)
  · rw [decode_short buf (by omega)] at h
    exact absurd h (by simp)

lemma decode_none_inv (buf : List Nat) (rest : List Nat)
    (h : RawControlCodec.decode buf = (.ok none, rest)) : rest = buf := by
  by_cases h6 : 6 ≤ buf.length
  · by_cases hmax : 0x7fffff < getU32BE (buf.drop 2)
    · rw [decode_too_long buf h6 hmax] at h
      exact absurd h (by simp)
    · push_neg at hmax
      by_cases hfit : 6 + getU32BE (buf.drop 2) ≤ buf.length
      · rw [decode_success_raw buf h6 hmax hfit] at h
        exact absurd h (by simp)
      · rw [decode_incomplete buf h6 hmax (by omega)] at h
        simp only [Prod.mk.injEq] at h
        exact h.2.symm
  · rw [decode_short buf (by omega)] at h
    simp only [Prod.mk.injEq] at h
    exact h.2.symm

lemma decode_error_inv (buf : List Nat) (e : String) (rest : List Nat)
    (h : RawControlCodec.decode buf = (.error e, rest)) :
    rest = buf ∧ e = "packet too long" := by
  by_cases h6 : 6 ≤ buf.length
  · by_cases hmax : 0x7fffff < getU32BE (buf.drop 2)
    · rw [decode_too_long buf h6 hmax] at h
      simp only [Prod.mk.injEq, Except.error.injEq] at h
      exact ⟨h.2.symm, h.1.symm⟩
    · push_neg at hmax
      by_cases hfit : 6 + getU32BE (buf.drop 2) ≤ buf.length
      · rw [decode_success_raw buf h6 hmax hfit] at h
        exact absurd h (by simp)
      · rw [decode_incomplete buf h6 hmax (by omega)] at h
        exact absurd h (by simp)
  · rw [decode_short buf (by omega)] at h
    exact absurd h (by simp)

/-! ### Claim theorems for the framer -/

/-- C2: Frame-decoder consumption exactness.  `decode` consumes bytes only
when it returns a frame — on `none` and on error the buffer is returned
unchanged — and when it returns a frame it consumes exactly `6 + length`
bytes, the payload being the `length` bytes immediately after the 6-byte
header; every proper prefix of a valid encoded frame yields `none` with
zero bytes consumed; and a buffer of two concatenated valid frames decodes
to the first frame leaving exactly the second frame's bytes, in order. -/
theorem decode_consumption_exact (buf : List Nat) (p q : RawControlPacket)
    (hid : p.id < 65536) (hlen : p.bytes.length ≤ 0x7fffff) :
    (∀ r rest, RawControlCodec.decode buf = (.ok (some r), rest) →
        6 + r.bytes.length ≤ buf.length ∧
        r.bytes = (buf.drop 6).take r.bytes.length ∧
        rest = buf.drop (6 + r.bytes.length)) ∧
    (∀ rest, RawControlCodec.decode buf = (.ok none, rest) → rest = buf) ∧
    (∀ e rest, RawControlCodec.decode buf = (.error e, rest) → rest = buf) ∧
    (∀ n, n < (frameBytes p).length →
        RawControlCodec.decode ((frameBytes p).take n) =
          (.ok none, (frameBytes p).take n)) ∧
    RawControlCodec.decode (frameBytes p ++ frameBytes q) =
      (.ok (some p), frameBytes q) := by
  refine ⟨?_, ?_, ?_, ?_, ?_⟩
  · intro r rest h
    obtain ⟨h1, _, h3, h4⟩ := decode_some_inv buf r rest h
    exact ⟨h1, h3, h4⟩
  · intro rest h
    exact decode_none_inv buf rest h
  · intro e rest h
    exact (decode_error_inv buf e rest h).1
  · intro n hn
    exact decode_take_frameBytes p n hlen hn
  · exact decode_frameBytes_append p (frameBytes q) hid hlen

/-- Witness for `decode_consumption_exact`: a concrete two-frame buffer
decodes to the first frame, leaving the second frame's bytes. -/
theorem decode_consumption_exact_witness :
    RawControlCodec.decode (frameBytes ⟨1, [7, 8]⟩ ++ frameBytes ⟨2, [9]⟩) =
      (.ok (some ⟨1, [7, 8]⟩), frameBytes ⟨2, [9]⟩) :=
  (decode_consumption_exact [] ⟨1, [7, 8]⟩ ⟨2, [9]⟩ (by decide) (by decide)).2.2.2.2

/-- C3: Length boundary.  A frame declaring length `0x7fffff` decodes
successfully once `6 + length` bytes are buffered, while a declared length
of `0x800000` produces the fatal framing error as soon as the six header
bytes are present, whatever (even zero) payload bytes follow. -/
theorem length_boundary (id : Nat) (payload extra : List Nat)
    (hid : id < 65536) (hlen : payload.length = 0x7fffff) :
    RawControlCodec.decode (u16Bytes id ++ u32Bytes 0x7fffff ++ payload) =
      (.ok (some ⟨id, payload⟩), []) ∧
    RawControlCodec.decode (u16Bytes id ++ u32Bytes 0x800000 ++ extra) =
      (.error "packet too long", u16Bytes id ++ u32Bytes 0x800000 ++ extra) := by
  constructor
  · have hfb : u16Bytes id ++ u32Bytes 0x7fffff ++ payload = frameBytes ⟨id, payload⟩ := by
      rw [frameBytes]
      simp [hlen]
    rw [hfb]
    have := decode_frameBytes_append ⟨id, payload⟩ [] hid (by simp [hlen])
    simpa using this
  · have hcons : u16Bytes id ++ u32Bytes 0x800000 ++ extra =
        id / 256 % 256 :: id % 256 :: 0 :: 128 :: 0 :: 0 :: extra := by
      norm_num [u16Bytes, u32Bytes]
    rw [hcons]
    refine decode_too_long _ (by simp only [List.length_cons]; omega) ?_
    rw [show (id / 256 % 256 :: id % 256 :: 0 :: 128 :: 0 :: 0 :: extra).drop 2 =
      0 :: 128 :: 0 :: 0 :: extra from rfl]
    rw [getU32BE_cons]
    norm_num

/-- Witness for `length_boundary` at `id = 0` with an all-zero maximal
payload and an empty over-long frame. -/
theorem length_boundary_witness :
    (List.replicate 0x7fffff 0).length = 0x7fffff ∧
    (RawControlCodec.decode (u16Bytes 0 ++ u32Bytes 0x7fffff ++ List.replicate 0x7fffff 0) =
        (.ok (some ⟨0, List.replicate 0x7fffff 0⟩), []) ∧
     RawControlCodec.decode (u16Bytes 0 ++ u32Bytes 0x800000 ++ []) =
        (.error "packet too long", u16Bytes 0 ++ u32Bytes 0x800000 ++ [])) :=
  ⟨by rw [List.length_replicate], length_boundary 0 (List.replicate 0x7fffff 0) [] (by decide)
    (by rw [List.length_replicate])⟩

/-- C5: Frame encode.  For every raw packet, `encode` returns `Ok` — with
no validation of the payload length — and appends to the destination
buffer exactly the 6-byte header (16-bit tag big-endian, then 32-bit
payload length big-endian) followed by the payload bytes unchanged; the
header fields read back as the tag and the length. -/
theorem encode_appends_header (p : RawControlPacket) (dst : List Nat) :
    RawControlCodec.encode p dst =
      .ok (dst ++
        [p.id / 256 % 256, p.id % 256,
         p.bytes.length % 4294967296 / 16777216 % 256,
         p.bytes.length % 4294967296 / 65536 % 256,
         p.bytes.length % 4294967296 / 256 % 256,
         p.bytes.length % 4294967296 % 256] ++ p.bytes) ∧
    (p.id < 65536 → getU16BE (frameBytes p) = p.id) ∧
    (p.bytes.length < 4294967296 → getU32BE ((frameBytes p).drop 2) = p.bytes.length) := by
  refine ⟨?_, ?_, ?_⟩
  · rw [RawControlCodec.encode]
    simp [u16Bytes, u32Bytes]
  · intro hid
    have := getU16BE_frameBytes_append p [] hid
    simpa using this
  · intro hlen
    have := getU32BE_frameBytes_append p [] hlen
    simpa using this

/-- Witness for `encode_appends_header` at a concrete packet and
destination buffer. -/
theorem encode_appends_header_witness :
    RawControlCodec.encode ⟨1, [7, 8]⟩ [9] = .ok ([9] ++ [0, 1, 0, 0, 0, 2] ++ [7, 8]) ∧
    getU16BE (frameBytes ⟨1, [7, 8]⟩) = 1 ∧
    getU32BE ((frameBytes ⟨1, [7, 8]⟩).drop 2) = 2 := by
  have h := encode_appends_header ⟨1, [7, 8]⟩ [9]
  exact ⟨h.1.trans (by norm_num), h.2.1 (by decide), h.2.2 (by decide)⟩

/-- C10: Framing-error atomicity.  Whenever `decode` reports the fatal
framing error, that error is the "packet too long" error and the buffer is
returned byte-for-byte unchanged: the six header bytes were only read
through a cursor, never consumed. -/
theorem framing_error_leaves_buffer (buf rest : List Nat) (e : String)
    (h : RawControlCodec.decode buf = (.error e, rest)) :
    rest = buf ∧ e = "packet too long" :=
  decode_error_inv buf e rest h

/-- Witness for `framing_error_leaves_buffer`: a six-byte buffer declaring
length `0xffffffff` errors out and is left unchanged. -/
theorem framing_error_leaves_buffer_witness :
    RawControlCodec.decode [255, 255, 255, 255, 255, 255] =
      (.error "packet too long", [255, 255, 255, 255, 255, 255]) ∧
    ([255, 255, 255, 255, 255, 255] : List Nat) = [255, 255, 255, 255, 255, 255] :=
  ⟨rfl, (framing_error_leaves_buffer [255, 255, 255, 255, 255, 255]
      [255, 255, 255, 255, 255, 255] "packet too long" rfl).1⟩

/-! ### Helper lemmas about the registry and dispatcher -/

lemma le_of_kindFor_eq_none (tag : Nat) (h : kindFor tag = none) : 29 ≤ tag := by
  by_contra hlt
  push_neg at hlt
  have hdec : ∀ t < 29, (kindFor t).isSome := by decide
  have := hdec tag hlt
  rw [h] at this
  simp at this

lemma kindFor_eq_none_of_ge (tag : Nat) (h : 29 ≤ tag) : kindFor tag = none := by
  rw [kindFor, show buildMappings true =
    [
    (.Version, 0), (.UDPTunnel, 1), (.Authenticate, 2), (.Ping, 3), (.Reject, 4),
    (.ServerSync, 5), (.ChannelRemove, 6), (.ChannelState, 7), (.UserRemove, 8),
    (.UserState, 9), (.BanList, 10), (.TextMessage, 11), (.PermissionDenied, 12), (.ACL,
    13), (.QueryUsers, 14), (.CryptSetup, 15), (.ContextActionModify, 16),
    (.ContextAction, 17), (.UserList, 18), (.VoiceTarget, 19), (.PermissionQuery, 20),
    (.CodecVersion, 21), (.UserStats, 22), (.RequestBlob, 23), (.ServerConfig, 24),
    (.SuggestConfig, 25), (.WebRTC, 26), (.IceCandidate, 27), (.TalkingState, 28)
    ] from by decide]
  rw [List.find?_cons_of_neg _ (by simp; omega)]
  rw [List.find?_cons_of_neg _ (by simp; omega)]
  rw [List.find?_cons_of_neg _ (by simp; omega)]
  rw [List.find?_cons_of_neg _ (by simp; omega)]
  rw [List.find?_cons_of_neg _ (by simp; omega)]
  rw [List.find?_cons_of_neg _ (by simp; omega)]
  rw [List.find?_cons_of_neg _ (by simp; omega)]
  rw [List.find?_cons_of_neg _ (by simp; omega)]
  rw [List.find?_cons_of_neg _ (by simp; omega)]
  rw [List.find?_cons_of_neg _ (by simp; omega)]
  rw [List.find?_cons_of_neg _ (by simp; omega)]
  rw [List.find?_cons_of_neg _ (by simp; omega)]
  rw [List.find?_cons_of_neg _ (by simp; omega)]
  rw [List.find?_cons_of_neg _ (by simp; omega)]
  rw [List.find?_cons_of_neg _ (by simp; omega)]
  rw [List.find?_cons_of_neg _ (by simp; omega)]
  rw [List.find?_cons_of_neg _ (by simp; omega)]
  rw [List.find?_cons_of_neg _ (by simp; omega)]
  rw [List.find?_cons_of_neg _ (by simp; omega)]
  rw [List.find?_cons_of_neg _ (by simp; omega)]
  rw [List.find?_cons_of_neg _ (by simp; omega)]
  rw [List.find?_cons_of_neg _ (by simp; omega)]
  rw [List.find?_cons_of_neg _ (by simp; omega)]
  rw [List.find?_cons_of_neg _ (by simp; omega)]
  rw [List.find?_cons_of_neg _ (by simp; omega)]
  rw [List.find?_cons_of_neg _ (by simp; omega)]
  rw [List.find?_cons_of_neg _ (by simp; omega)]
  rw [List.find?_cons_of_neg _ (by simp; omega)]
  rw [List.find?_cons_of_neg _ (by simp; omega)]
  rfl

lemma tryFrom_unassigned {V : Type} {M : Nat → Type}
    (parseM : (k : Nat) → List Nat → Except String (M k))
    (decV : List Nat → Except String V) (p : RawControlPacket)
    (h : kindFor p.id = none) :
    ControlPacket.tryFrom parseM decV p = .ok (.Other p) := by
  have h29 := le_of_kindFor_eq_none p.id h
  rw [ControlPacket.tryFrom]
  rw [if_neg (show ¬ p.id = 0 by omega)]
  rw [if_neg (show ¬ p.id = 1 by omega)]
  rw [if_neg (show ¬ p.id = 2 by omega)]
  rw [if_neg (show ¬ p.id = 3 by omega)]
  rw [if_neg (show ¬ p.id = 4 by omega)]
  rw [if_neg (show ¬ p.id = 5 by omega)]
  rw [if_neg (show ¬ p.id = 6 by omega)]
  rw [if_neg (show ¬ p.id = 7 by omega)]
  rw [if_neg (show ¬ p.id = 8 by omega)]
  rw [if_neg (show ¬ p.id = 9 by omega)]
  rw [if_neg (show ¬ p.id = 10 by omega)]
  rw [if_neg (show ¬ p.id = 11 by omega)]
  rw [if_neg (show ¬ p.id = 12 by omega)]
  rw [if_neg (show ¬ p.id = 13 by omega)]
  rw [if_neg (show ¬ p.id = 14 by omega)]
  rw [if_neg (show ¬ p.id = 15 by omega)]
  rw [if_neg (show ¬ p.id = 16 by omega)]
  rw [if_neg (show ¬ p.id = 17 by omega)]
  rw [if_neg (show ¬ p.id = 18 by omega)]
  rw [if_neg (show ¬ p.id = 19 by omega)]
  rw [if_neg (show ¬ p.id = 20 by omega)]
  rw [if_neg (show ¬ p.id = 21 by omega)]
  rw [if_neg (show ¬ p.id = 22 by omega)]
  rw [if_neg (show ¬ p.id = 23 by omega)]
  rw [if_neg (show ¬ p.id = 24 by omega)]
  rw [if_neg (show ¬ p.id = 25 by omega)]
  rw [if_neg (show ¬ p.id = 26 by omega)]
  rw [if_neg (show ¬ p.id = 27 by omega)]
  rw [if_neg (show ¬ p.id = 28 by omega)]

/-! ### Claim theorems for the dispatcher -/

/-- C1 (amended): round-trip law.  For every control message whose
payload-level round-trip condition holds — the external per-kind codec
round-trips the payload for known-kind variants, and the wrapped tag is
unassigned for the catch-all `Other` variant — converting to a raw packet
and back yields the same message. -/
theorem controlPacket_roundtrip {V : Type} {M : Nat → Type}
    (parseM : (k : Nat) → List Nat → Except String (M k))
    (serM : (k : Nat) → M k → List Nat)
    (decV : List Nat → Except String V) (encV : V → List Nat)
    (m : ControlPacket V M) (h : PayloadRoundTrips parseM serM decV encV m) :
    ControlPacket.tryFrom parseM decV (ControlPacket.toRaw serM encV m) = .ok m := by
  cases m
  case Other r =>
    simp only [PayloadRoundTrips] at h
    simpa [ControlPacket.toRaw] using tryFrom_unassigned parseM decV r h
  all_goals
    simp only [PayloadRoundTrips] at h
    simp [ControlPacket.toRaw, ControlPacket.tryFrom, h, Except.map]

/-- Witness for `controlPacket_roundtrip`: a concrete `Ping` message under
the identity instantiation of the external codecs. -/
theorem controlPacket_roundtrip_witness :
    PayloadRoundTrips idParse idSer idDec idEnc
      (ControlPacket.Ping (V := List Nat) ([5] : idMsg 3)) ∧
    ControlPacket.tryFrom idParse idDec
        (ControlPacket.toRaw idSer idEnc (ControlPacket.Ping (V := List Nat) ([5] : idMsg 3))) =
      .ok (ControlPacket.Ping (V := List Nat) ([5] : idMsg 3)) :=
  ⟨rfl, controlPacket_roundtrip idParse idSer idDec idEnc _ rfl⟩

/-- C1 counterexample: parse-serialize round-tripping fails, as stated,
for the constructible message `Other ⟨0, []⟩`, whose wrapped tag is the
assigned `Version` tag, even though the (identity-instantiated) external
per-kind codec round-trips every payload: the message re-parses as a
`Version` message instead. -/
theorem roundtrip_fails_for_other_known_tag :
    idParse 0 (idSer 0 ([] : idMsg 0)) = .ok [] ∧
    ControlPacket.tryFrom idParse idDec
        (ControlPacket.toRaw idSer idEnc
          (ControlPacket.Other (V := List Nat) (M := idMsg) ⟨0, []⟩)) =
      .ok (ControlPacket.Version (V := List Nat) ([] : idMsg 0)) ∧
    ControlPacket.Version (V := List Nat) ([] : idMsg 0) ≠
      ControlPacket.Other (V := List Nat) (M := idMsg) ⟨0, []⟩ :=
  ⟨rfl, rfl, fun hco => ControlPacket.noConfusion hco⟩

/-- C4: Unknown passthrough.  A raw frame whose tag has no kind assigned
in the registry parses — without error — to the catch-all `Other` variant
wrapping exactly that frame, and serializing that variant yields the
identical raw frame back. -/
theorem unknown_passthrough {V : Type} {M : Nat → Type}
    (parseM : (k : Nat) → List Nat → Except String (M k))
    (serM : (k : Nat) → M k → List Nat)
    (decV : List Nat → Except String V) (encV : V → List Nat)
    (tag : Nat) (b : List Nat) (h : kindFor tag = none) :
    ControlPacket.tryFrom parseM decV ⟨tag, b⟩ = .ok (.Other ⟨tag, b⟩) ∧
    ControlPacket.toRaw serM encV (.Other (V := V) (M := M) ⟨tag, b⟩) = ⟨tag, b⟩ :=
  ⟨tryFrom_unassigned parseM decV ⟨tag, b⟩ h, rfl⟩

/-- Witness for `unknown_passthrough` at the first unassigned tag. -/
theorem unknown_passthrough_witness :
    ControlPacket.tryFrom idParse idDec ⟨29, [1, 2, 3]⟩ =
      .ok (.Other (V := List Nat) (M := idMsg) ⟨29, [1, 2, 3]⟩) ∧
    ControlPacket.toRaw idSer idEnc (.Other (V := List Nat) (M := idMsg) ⟨29, [1, 2, 3]⟩) =
      ⟨29, [1, 2, 3]⟩ :=
  unknown_passthrough idParse idSer idDec idEnc 29 [1, 2, 3] (by decide)

/-- C6: Type-mismatch narrow extraction.  Converting a raw packet to one
specific kind (a protobuf message kind, or a tunneled voice packet)
succeeds only when the packet's tag equals that kind's registry id, in
which case the payload is delegated to that kind's parser; a differing tag
produces the typed "expected packet of type X" error value. -/
theorem narrow_extraction {V : Type} {M : Nat → Type}
    (parseM : (k : Nat) → List Nat → Except String (M k))
    (decV : List Nat → Except String V)
    (k : Nat) (name : String) (p : RawControlPacket) :
    (∀ m, msgTryFromRaw parseM k name p = .ok m → p.id = k) ∧
    (p.id = k → msgTryFromRaw parseM k name p = parseM k p.bytes) ∧
    (p.id ≠ k → msgTryFromRaw parseM k name p =
      .error ("expected packet of type " ++ name)) ∧
    (∀ v, voiceTryFromRaw decV p = .ok v → p.id = msgs.id.UDPTunnel) ∧
    (p.id = msgs.id.UDPTunnel → voiceTryFromRaw decV p = decV p.bytes) ∧
    (p.id ≠ msgs.id.UDPTunnel → voiceTryFromRaw decV p =
      .error "expected packet of type UDPTunnel") := by
  refine ⟨?_, ?_, ?_, ?_, ?_, ?_⟩
  · intro m hm
    by_cases hid : p.id = k
    · exact hid
    · rw [msgTryFromRaw, if_neg hid] at hm
      exact absurd hm (by simp)
  · intro hid
    rw [msgTryFromRaw, if_pos hid]
  · intro hid
    rw [msgTryFromRaw, if_neg hid]
  · intro v hv
    by_cases hid : p.id = msgs.id.UDPTunnel
    · exact hid
    · rw [voiceTryFromRaw, if_neg hid] at hv
      exact absurd hv (by simp)
  · intro hid
    rw [voiceTryFromRaw, if_pos hid]
  · intro hid
    rw [voiceTryFromRaw, if_neg hid]

/-- Witness for `narrow_extraction`: concrete matching and mismatching
extractions under the identity instantiation. -/
theorem narrow_extraction_witness :
    msgTryFromRaw idParse 0 "Version" ⟨3, [5]⟩ =
      .error ("expected packet of type " ++ "Version") ∧
    msgTryFromRaw idParse 0 "Version" ⟨0, [5]⟩ = idParse 0 [5] ∧
    voiceTryFromRaw idDec ⟨3, [5]⟩ = .error "expected packet of type UDPTunnel" ∧
    voiceTryFromRaw idDec ⟨1, [5]⟩ = idDec [5] := by
  have h1 := narrow_extraction (V := List Nat) idParse idDec 0 "Version" ⟨3, [5]⟩
  have h2 := narrow_extraction (V := List Nat) idParse idDec 0 "Version" ⟨0, [5]⟩
  have h3 := narrow_extraction (V := List Nat) idParse idDec 0 "Version" ⟨1, [5]⟩
  exact ⟨h1.2.2.1 (by decide), h2.2.1 rfl, h1.2.2.2.2.2 (by decide), h3.2.2.2.2.1 rfl⟩

/-- C7 (amended): parse-error propagation.  When a raw frame's tag matches
a known kind and that kind's external parser rejects the payload bytes,
`tryFrom` returns exactly the parser's error — the underlying cause —
unchanged; no kind identification is added to the error. -/
theorem parse_error_propagates {V : Type} {M : Nat → Type}
    (parseM : (k : Nat) → List Nat → Except String (M k))
    (decV : List Nat → Except String V) (p : RawControlPacket) (e : String)
    (hk : (kindFor p.id).isSome)
    (hprot : p.id ≠ msgs.id.UDPTunnel → parseM p.id p.bytes = .error e)
    (hvoice : p.id = msgs.id.UDPTunnel → decV p.bytes = .error e) :
    ControlPacket.tryFrom parseM decV p = .error e := by
  obtain ⟨pid, bytes⟩ := p
  have h29 : pid < 29 := by
    by_contra hge
    push_neg at hge
    rw [show (⟨pid, bytes⟩ : RawControlPacket).id = pid from rfl,
      kindFor_eq_none_of_ge pid hge] at hk
    simp at hk
  interval_cases pid <;>
    first
      | simp [ControlPacket.tryFrom, Except.map, hvoice rfl]
      | simp [ControlPacket.tryFrom, Except.map, hprot (by simp)]

/-- Witness for `parse_error_propagates`: a known-kind frame whose payload
is rejected by the always-failing parser propagates that parser's error. -/
theorem parse_error_propagates_witness :
    ControlPacket.tryFrom (V := List Nat) failParse idDec ⟨4, [7]⟩ = .error "bad payload" :=
  parse_error_propagates failParse idDec ⟨4, [7]⟩ "bad payload" (by decide)
    (fun _ => rfl) (fun hco => absurd hco (by decide))

/-- C7 counterexample: two raw frames of different known kinds whose
payloads are rejected with the same parser message yield identical error
values, so the parse error returned by the dispatcher does not identify
the offending kind. -/
theorem parse_error_lacks_kind :
    ControlPacket.tryFrom (V := List Nat) failParse idDec ⟨0, [7]⟩ = .error "bad payload" ∧
    ControlPacket.tryFrom (V := List Nat) failParse idDec ⟨2, [7]⟩ = .error "bad payload" :=
  ⟨rfl, rfl⟩

/-- C8: Registry tag assignment.  The packet-id table assigns tags
contiguously from zero in the fixed declaration order (`Version = 0`,
`UDPTunnel = 1`, …, `SuggestConfig = 25`, `WebRTC = 26`,
`IceCandidate = 27`, `TalkingState = 28`); compiling out the
`webrtc-extensions` kinds leaves their tags as unassigned holes while
every other kind keeps the same tag in both builds. -/
theorem registry_tags :
    buildMappings true =
      [(.Version, 0), (.UDPTunnel, 1), (.Authenticate, 2), (.Ping, 3), (.Reject, 4),
       (.ServerSync, 5), (.ChannelRemove, 6), (.ChannelState, 7), (.UserRemove, 8),
       (.UserState, 9), (.BanList, 10), (.TextMessage, 11), (.PermissionDenied, 12),
       (.ACL, 13), (.QueryUsers, 14), (.CryptSetup, 15), (.ContextActionModify, 16),
       (.ContextAction, 17), (.UserList, 18), (.VoiceTarget, 19), (.PermissionQuery, 20),
       (.CodecVersion, 21), (.UserStats, 22), (.RequestBlob, 23), (.ServerConfig, 24),
       (.SuggestConfig, 25), (.WebRTC, 26), (.IceCandidate, 27), (.TalkingState, 28)] ∧
    buildMappings false =
      [(.Version, 0), (.UDPTunnel, 1), (.Authenticate, 2), (.Ping, 3), (.Reject, 4),
       (.ServerSync, 5), (.ChannelRemove, 6), (.ChannelState, 7), (.UserRemove, 8),
       (.UserState, 9), (.BanList, 10), (.TextMessage, 11), (.PermissionDenied, 12),
       (.ACL, 13), (.QueryUsers, 14), (.CryptSetup, 15), (.ContextActionModify, 16),
       (.ContextAction, 17), (.UserList, 18), (.VoiceTarget, 19), (.PermissionQuery, 20),
       (.CodecVersion, 21), (.UserStats, 22), (.RequestBlob, 23), (.ServerConfig, 24),
       (.SuggestConfig, 25)] ∧
    (∀ e ∈ packetDecl, e.2 = false → tagForBuild false e.1 = tagForBuild true e.1) ∧
    (∀ e ∈ packetDecl, e.2 = true → tagForBuild false e.1 = none) := by
  refine ⟨by decide, by decide, by decide, by decide⟩

/-- Witness for `registry_tags`: the feature-gated `WebRTC` kind has tag 26
with the feature enabled and no tag without it, while the ungated
`SuggestConfig` keeps tag 25 in both builds. -/
theorem registry_tags_witness :
    tagForBuild false PacketKind.WebRTC = none ∧
    tagForBuild false PacketKind.SuggestConfig = tagForBuild true PacketKind.SuggestConfig :=
  ⟨registry_tags.2.2.2 (.WebRTC, true) (by decide) rfl,
   registry_tags.2.2.1 (.SuggestConfig, false) (by decide) rfl⟩

/-- C9: Infallible tunnel encode.  Whenever the external media encoder
succeeds on a packet — which its contract guarantees — converting the
tunneled voice packet into a raw control packet succeeds (the
`VoiceEncoder is infallible` assertion never fires), and every raw packet
this conversion produces carries the `UDPTunnel` tag. -/
theorem voice_encode_infallible {V : Type} (encVf : V → Except String (List Nat))
    (v : V) (bs : List Nat) (h : encVf v = .ok bs) :
    voiceIntoRaw encVf v = some ⟨msgs.id.UDPTunnel, bs⟩ ∧
    ∀ w r, voiceIntoRaw encVf w = some r → r.id = msgs.id.UDPTunnel := by
  constructor
  · rw [voiceIntoRaw, h]
  · intro w r hr
    rw [voiceIntoRaw] at hr
    cases henc : encVf w with
    | ok bs2 =>
        rw [henc] at hr
        simp only [Option.some.injEq] at hr
        rw [← hr]
    | error e =>
        rw [henc] at hr
        exact absurd hr (by simp)

/-- Witness for `voice_encode_infallible` with a concrete one-packet
encoder. -/
theorem voice_encode_infallible_witness :
    voiceIntoRaw (fun _ : Unit => (Except.ok [1, 2] : Except String (List Nat))) () =
      some ⟨msgs.id.UDPTunnel, [1, 2]⟩ ∧
    ∀ w r, voiceIntoRaw (fun _ : Unit => (Except.ok [1, 2] : Except String (List Nat))) w =
      some r → r.id = msgs.id.UDPTunnel :=
  voice_encode_infallible (fun _ => .ok [1, 2]) () [1, 2] rfl

end Mumble
